import Mathlib

/-!
Shallow embedding of the `contracts` package of the alvarium-sdk-go
repository (files `pkg/contracts/constants.go`, `pkg/contracts/annotation.go`,
`pkg/contracts/layer.go`), together with theorems settling the claims about
the enumeration validators, the tag-resolution logic, the annotation
constructor and the custom JSON unmarshalling.

Go string-typed enumerations are embedded as `String` abbreviations with the
declared constants; each `Validate` method is translated clause for clause
from the source.  Effectful inputs of the Go code (the generated ULID, the
current time, the installed tag resolver and the process environment) are
passed explicitly.  The external `ulid.ULID` and `time.Time` values are
opaque to every claim considered, so they are embedded as opaque wrappers
with decidable equality.
-/

namespace contracts

/-- Embedding of `ulid.ULID` (external library type): an opaque 128-bit
identifier.  Its internal structure is irrelevant to the contracts code. -/
structure ULID where
  val : Nat
deriving DecidableEq, Repr

/-- Zero value of `ulid.ULID`, as produced by Go for an absent JSON field. -/
def ULID.zero : ULID := ⟨0⟩

/-- Embedding of `time.Time` (standard library type): an opaque instant. -/
structure Time where
  val : Int
deriving DecidableEq, Repr

/-- Zero value of `time.Time`, as produced by Go for an absent JSON field. -/
def Time.zero : Time := ⟨0⟩

/-! Enumerations from `pkg/contracts/constants.go`. -/

abbrev NetType := String

def Mainnet : NetType := "mainnet"
def Testnet : NetType := "testnet"
def Previewnet : NetType := "previewnet"
def Local : NetType := "local"

/-- Translation of `NetType.Validate` (constants.go). -/
def NetType.Validate (t : NetType) : Bool :=
  if t == Mainnet || t == Testnet || t == Previewnet || t == Local then true
  else false

abbrev HashType := String

def MD5Hash : HashType := "md5"
def SHA256Hash : HashType := "sha256"
def NoHash : HashType := "none"

/-- Translation of `HashType.Validate` (constants.go). -/
def HashType.Validate (t : HashType) : Bool :=
  if t == MD5Hash || t == SHA256Hash || t == NoHash then true
  else false

abbrev KeyAlgorithm := String

def KeyEd25519 : KeyAlgorithm := "ed25519"
def KeyEcdsaX509 : KeyAlgorithm := "ecdsa-x509"
def KeyEcdsaSecp256k1 : KeyAlgorithm := "ecdsa-secp256k1"

/-- Translation of `KeyAlgorithm.Validate` (constants.go). -/
def KeyAlgorithm.Validate (k : KeyAlgorithm) : Bool :=
  if k == KeyEd25519 || k == KeyEcdsaX509 || k == KeyEcdsaSecp256k1 then true
  else false

abbrev StreamType := String

def ConsoleStream : StreamType := "console"
def MockStream : StreamType := "mock"
def MqttStream : StreamType := "mqtt"
def PravegaStream : StreamType := "pravega"
def HederaStream : StreamType := "hedera"

/-- Translation of `StreamType.Validate` (constants.go). -/
def StreamType.Validate (t : StreamType) : Bool :=
  if t == MockStream || t == MqttStream || t == PravegaStream ||
      t == ConsoleStream || t == HederaStream then true
  else false

abbrev AnnotationType := String

def AnnotationPKI : AnnotationType := "pki"
def AnnotationPKIHttp : AnnotationType := "pki-http"
def AnnotationSource : AnnotationType := "src"
def AnnotationTLS : AnnotationType := "tls"
def AnnotationTPM : AnnotationType := "tpm"
def AnnotationSourceCode : AnnotationType := "source-code"
def AnnotationChecksum : AnnotationType := "checksum"
def AnnotationVulnerability : AnnotationType := "vulnerability"
def AnnotationSBOM : AnnotationType := "sbom"

/-- Translation of `AnnotationType.Validate` (constants.go).  The source
switch lists exactly the cases below; note that `AnnotationSBOM` is declared
as a constant of the enumeration but does not appear among the cases. -/
def AnnotationType.Validate (t : AnnotationType) : Bool :=
  if t == AnnotationPKI || t == AnnotationTLS || t == AnnotationTPM ||
      t == AnnotationSource || t == AnnotationPKIHttp ||
      t == AnnotationSourceCode || t == AnnotationChecksum ||
      t == AnnotationVulnerability then true
  else false

abbrev DerivedComponent := String

def Method : DerivedComponent := "@method"
def TargetURI : DerivedComponent := "@target-uri"
def Authority : DerivedComponent := "@authority"
def Scheme : DerivedComponent := "@scheme"
def Path : DerivedComponent := "@path"
def Query : DerivedComponent := "@query"
def QueryParams : DerivedComponent := "@query-params"

/-- Translation of `DerivedComponent.Validate` (constants.go). -/
def DerivedComponent.Validate (d : DerivedComponent) : Bool :=
  if d == Method || d == Authority || d == TargetURI || d == Scheme ||
      d == Path || d == Query || d == QueryParams then true
  else false

abbrev LayerType := String

def Application : LayerType := "app"
def CiCd : LayerType := "cicd"
def Os : LayerType := "os"
def Host : LayerType := "host"

/-- Translation of `LayerType.Validate`: the switch is identical in
constants.go and layer.go (the constants of layer.go carry the same string
values under the names `ApplicationLayer`, `CiCdLayer`, `OsLayer`,
`HostLayer`). -/
def LayerType.Validate (l : LayerType) : Bool :=
  if l == Application || l == CiCd || l == Os || l == Host then true
  else false

/-! Declared member sets of each enumeration, read off the `const` blocks of
constants.go (and layer.go for the layers). -/

def netTypeMembers : List String := [Mainnet, Testnet, Previewnet, Local]

def hashTypeMembers : List String := [MD5Hash, SHA256Hash, NoHash]

def keyAlgorithmMembers : List String :=
  [KeyEd25519, KeyEcdsaX509, KeyEcdsaSecp256k1]

def streamTypeMembers : List String :=
  [ConsoleStream, MockStream, MqttStream, PravegaStream, HederaStream]

def annotationTypeMembers : List String :=
  [AnnotationPKI, AnnotationPKIHttp, AnnotationSource, AnnotationTLS,
   AnnotationTPM, AnnotationSourceCode, AnnotationChecksum,
   AnnotationVulnerability, AnnotationSBOM]

def derivedComponentMembers : List String :=
  [Method, TargetURI, Authority, Scheme, Path, Query, QueryParams]

def layerTypeMembers : List String := [Application, CiCd, Os, Host]

/-! Data model and tag resolution from `pkg/contracts/annotation.go`. -/

/-- Name of the environment variable read by the default application-layer
tag resolver (`TagEnvKey` in annotation.go). -/
def TagEnvKey : String := "TAG"

/-- Embedding of the `Annotation` struct of annotation.go: one assertion
about one piece of data.  Field names follow the Go struct. -/
structure Annotation where
  Id : ULID
  Key : String
  Hash : HashType
  Host : String
  Tag : String
  Layer : LayerType
  Kind : AnnotationType
  Signature : String
  IsSatisfied : Bool
  Timestamp : Time
deriving DecidableEq, Repr

/-- Type of the pluggable per-layer tag resolver (`TagValueGetter`). -/
abbrev TagValueGetter := LayerType → String

/-- Translation of `defaultGetTagValue` (annotation.go).  The read of the
process environment `os.Getenv` is embedded as an explicit environment
function `env` mapping a variable name to its value, with the Go convention
that an unset variable reads as the empty string. -/
def defaultGetTagValue (env : String → String) (layer : LayerType) : String :=
  if layer == Application then env TagEnvKey
  else ""

/-- Translation of `GetTagValue` (annotation.go).  The process-wide mutable
`CurrentTagValueGetter` is embedded as the explicit argument `getter`, the
value it holds at the time of the call. -/
def GetTagValue (getter : TagValueGetter) (env : String → String)
    (layer : LayerType) : String :=
  let tagValue := getter layer
  if tagValue != "" then tagValue
  else defaultGetTagValue env layer

/-- Translation of `NewAnnotation` (annotation.go).  The two effectful
calls `NewULID()` and `time.Now()` are embedded as the explicit arguments
`id` and `now`; the tag resolver state and environment feed `GetTagValue`
exactly as in the source.  The Go struct literal omits `Signature`, so it
receives the zero value, the empty string. -/
def NewAnnotation (id : ULID) (now : Time) (getter : TagValueGetter)
    (env : String → String) (key : String) (hash : HashType) (host : String)
    (layer : LayerType) (kind : AnnotationType) (satisfied : Bool) :
    Annotation :=
  { Id := id
    Key := key
    Hash := hash
    Host := host
    Tag := GetTagValue getter env layer
    Layer := layer
    Kind := kind
    Signature := ""
    IsSatisfied := satisfied
    Timestamp := now }

/-! JSON model.  `Annotation` has no custom marshaller, so serialization is
the standard `encoding/json` marshal under the declared struct tags; the
custom `Annotation.UnmarshalJSON` first decodes into the untagged `Alias`
struct and then validates.  A well-formed annotation JSON object is embedded
as a record of optional fields (absent field = `none`); every byte sequence
on which the generic `json.Unmarshal` into `Alias` errors (malformed JSON,
type-mismatched fields) is embedded by the `malformed` constructor. -/

/-- A parsed JSON object in the annotation shape: one optional slot per key
`id, key, hash, host, tag, layer, kind, signature, isSatisfied, timestamp`. -/
structure JsonDoc where
  id : Option ULID := none
  key : Option String := none
  hash : Option String := none
  host : Option String := none
  tag : Option String := none
  layer : Option String := none
  kind : Option String := none
  signature : Option String := none
  isSatisfied : Option Bool := none
  timestamp : Option Time := none
deriving DecidableEq, Repr

/-- Input to `Annotation.UnmarshalJSON`: either a byte sequence that the
generic decode rejects, or a well-formed annotation-shaped object. -/
inductive JsonData where
  | malformed (msg : String)
  | doc (d : JsonDoc)
deriving DecidableEq, Repr

/-- Embedding of the local `Alias` struct of `Annotation.UnmarshalJSON`:
the same fields as `Annotation`, without tags. -/
structure Alias where
  Id : ULID
  Key : String
  Hash : HashType
  Host : String
  Tag : String
  Layer : LayerType
  Kind : AnnotationType
  Signature : String
  IsSatisfied : Bool
  Timestamp : Time
deriving DecidableEq, Repr

/-- Generic decode of a well-formed annotation object into `Alias`, as
`json.Unmarshal` performs it: `encoding/json` matches the lower-case keys to
the exported `Alias` field names case-insensitively, and a field absent from
the document keeps its Go zero value. -/
def decodeAlias (d : JsonDoc) : Alias :=
  { Id := d.id.getD ULID.zero
    Key := d.key.getD ""
    Hash := d.hash.getD ""
    Host := d.host.getD ""
    Tag := d.tag.getD ""
    Layer := d.layer.getD ""
    Kind := d.kind.getD ""
    Signature := d.signature.getD ""
    IsSatisfied := d.isSatisfied.getD false
    Timestamp := d.timestamp.getD Time.zero }

/-- Translation of `Annotation.UnmarshalJSON` (annotation.go).  The Go
method mutates its receiver `a` and returns an error; the embedding returns
the receiver state after the call together with the error, so the result is
`(new receiver state, error)`.  The source decodes into `Alias`, returns on
a decode error, returns a descriptive error when the decoded `Hash` or
`Kind` fails its validator, and only then assigns every field of the
receiver from the decoded value. -/
def Annotation.unmarshalJSON (a : Annotation) (data : JsonData) :
    Annotation × Option String :=
  match data with
  | .malformed msg => (a, some msg)
  | .doc d =>
    let x := decodeAlias d
    if !(HashType.Validate x.Hash) then
      (a, some ("invalid HashType value provided " ++ x.Hash))
    else if !(AnnotationType.Validate x.Kind) then
      (a, some ("invalid AnnotationType value provided " ++ x.Kind))
    else
      ({ Id := x.Id
         Key := x.Key
         Hash := x.Hash
         Host := x.Host
         Tag := x.Tag
         Layer := x.Layer
         Kind := x.Kind
         Signature := x.Signature
         IsSatisfied := x.IsSatisfied
         Timestamp := x.Timestamp }, none)

/-- Standard `encoding/json` marshal of an `Annotation` under the declared
struct tags.  The string-typed fields carry `omitempty` and are dropped when
empty; `id` (a 16-byte array) and `timestamp` (a struct) are never dropped
by `omitempty`; `isSatisfied` has no `omitempty` and is always emitted. -/
def Annotation.marshalJSON (a : Annotation) : JsonDoc :=
  { id := some a.Id
    key := if a.Key == "" then none else some a.Key
    hash := if a.Hash == "" then none else some a.Hash
    host := if a.Host == "" then none else some a.Host
    tag := if a.Tag == "" then none else some a.Tag
    layer := if a.Layer == "" then none else some a.Layer
    kind := if a.Kind == "" then none else some a.Kind
    signature := if a.Signature == "" then none else some a.Signature
    isSatisfied := some a.IsSatisfied
    timestamp := some a.Timestamp }

/-! Concrete values used to evaluate the embedded code on specific inputs. -/

/-- A zero-valued receiver, the state of a fresh `var a Annotation`. -/
def blankAnn : Annotation :=
  { Id := ULID.zero, Key := "", Hash := "", Host := "", Tag := "", Layer := "",
    Kind := "", Signature := "", IsSatisfied := false, Timestamp := Time.zero }

/-- A fully populated annotation whose `Kind` is the declared member
`AnnotationSBOM` and whose `Hash` is the valid member `MD5Hash`. -/
def sbomAnn : Annotation :=
  { Id := ⟨5⟩, Key := "k", Hash := MD5Hash, Host := "h", Tag := "t",
    Layer := Application, Kind := AnnotationSBOM, Signature := "s",
    IsSatisfied := true, Timestamp := ⟨7⟩ }

/-- The same annotation as `sbomAnn` with the kind `AnnotationPKI`. -/
def pkiAnn : Annotation :=
  { Id := ⟨5⟩, Key := "k", Hash := MD5Hash, Host := "h", Tag := "t",
    Layer := Application, Kind := AnnotationPKI, Signature := "s",
    IsSatisfied := true, Timestamp := ⟨7⟩ }

/-- A document whose `hash` field holds an unrecognized value. -/
def badHashDoc : JsonDoc := { hash := some "invalid", kind := some "pki" }

/-- A document with valid `hash` and `kind` but an unrecognized `layer`. -/
def oddLayerDoc : JsonDoc :=
  { hash := some MD5Hash, kind := some AnnotationPKI, layer := some "weird" }

/-! Theorems settling the claims. -/

/-- C1.  The claim states that `AnnotationType.Validate` returns true on
every one of the nine declared members, `sbom` included.  The code accepts
only eight: the switch in constants.go omits the declared constant
`AnnotationSBOM`, so `Validate` on `"sbom"` returns false while it returns
true on the other eight members. -/
theorem validate_omits_declared_sbom_member :
    AnnotationType.Validate AnnotationSBOM = false ∧
    AnnotationSBOM ∈ annotationTypeMembers ∧
    AnnotationType.Validate AnnotationPKI = true ∧
    AnnotationType.Validate AnnotationPKIHttp = true ∧
    AnnotationType.Validate AnnotationSource = true ∧
    AnnotationType.Validate AnnotationTLS = true ∧
    AnnotationType.Validate AnnotationTPM = true ∧
    AnnotationType.Validate AnnotationSourceCode = true ∧
    AnnotationType.Validate AnnotationChecksum = true ∧
    AnnotationType.Validate AnnotationVulnerability = true := by
  decide

/-- C2.  The claim states that the JSON round trip succeeds for every valid
`(Hash, Kind)` pair drawn from the declared members, `(md5, sbom)` included.
Evaluating the code: marshalling `sbomAnn` and unmarshalling the result
errors and leaves the receiver untouched, because `Annotation.UnmarshalJSON`
rejects the kind `"sbom"` that `AnnotationType.Validate` omits; the same
round trip with kind `"pki"` succeeds and returns the original value. -/
theorem annotation_roundtrip_fails_for_sbom_kind :
    ( Annotation.unmarshalJSON blankAnn
        (.doc ( Annotation.marshalJSON sbomAnn))).2.isSome = true ∧
    ( Annotation.unmarshalJSON blankAnn
        (.doc ( Annotation.marshalJSON sbomAnn))).1 = blankAnn ∧
    Annotation.unmarshalJSON blankAnn
        (.doc ( Annotation.marshalJSON pkiAnn)) = (pkiAnn, none) := by
  decide

/-- C3.  Tag resolution: for every layer and every installed resolver `g`,
`GetTagValue` returns `g layer` when that value is non-empty and otherwise
falls back to `defaultGetTagValue`, which reads the `TAG` environment
variable for the application layer and returns the empty string for every
other layer. -/
theorem getTagValue_resolution (g : TagValueGetter) (env : String → String)
    (L : LayerType) :
    (g L ≠ "" → GetTagValue g env L = g L) ∧
    (g L = "" → GetTagValue g env L = defaultGetTagValue env L) ∧
    defaultGetTagValue env Application = env TagEnvKey ∧
    (L ≠ Application → defaultGetTagValue env L = "") := by
  refine ⟨?_, ?_, rfl, ?_⟩
  · intro h; simp [GetTagValue, h]
  · intro h; simp [GetTagValue, h]
  · intro h; simp [defaultGetTagValue, h]

/-- Witness for C3 at concrete inputs: an installed resolver returning
`"v"` wins on the os layer, and a resolver returning the empty string falls
back to the environment value on the application layer. -/
theorem getTagValue_resolution_witness :
    GetTagValue (fun _ => "v") (fun _ => "e") Os = "v" ∧
    GetTagValue (fun _ => "") (fun _ => "e") Application = "e" :=
  ⟨(getTagValue_resolution (fun _ => "v") (fun _ => "e") Os).1 (by decide),
   ((getTagValue_resolution (fun _ => "") (fun _ => "e")
      Application).2.1 rfl).trans rfl⟩

/-- C4.  On every well-formed document whose decoded `hash` fails
`HashType.Validate` or whose decoded `kind` fails `AnnotationType.Validate`,
`Annotation.UnmarshalJSON` returns an error instead of succeeding with a
defaulted value. -/
theorem unmarshalJSON_rejects_invalid_hash_or_kind (a : Annotation)
    (d : JsonDoc)
    (h : HashType.Validate (d.hash.getD "") = false ∨
      AnnotationType.Validate (d.kind.getD "") = false) :
    ( Annotation.unmarshalJSON a (.doc d)).2.isSome = true := by
  rcases h with h | h
  · simp [ Annotation.unmarshalJSON, decodeAlias, h]
  · by_cases h1 : HashType.Validate (d.hash.getD "") = true
    · simp [ Annotation.unmarshalJSON, decodeAlias, h, h1]
    · simp [ Annotation.unmarshalJSON, decodeAlias, h1]

/-- Witness for C4: unmarshalling a document whose `hash` field holds
`"invalid"` returns an error. -/
theorem unmarshalJSON_rejects_invalid_hash_or_kind_witness :
    HashType.Validate (badHashDoc.hash.getD "") = false ∧
    ( Annotation.unmarshalJSON blankAnn (.doc badHashDoc)).2.isSome = true :=
  ⟨by decide,
   unmarshalJSON_rejects_invalid_hash_or_kind blankAnn badHashDoc
     (Or.inl (by decide))⟩

/-- C5.  `StreamType.Validate` accepts the declared-but-unimplemented
member `"pravega"` exactly as it accepts the implemented members mock,
console, mqtt and hedera. -/
theorem streamType_validate_accepts_pravega :
    StreamType.Validate PravegaStream = true ∧
    StreamType.Validate MockStream = true ∧
    StreamType.Validate ConsoleStream = true ∧
    StreamType.Validate MqttStream = true ∧
    StreamType.Validate HederaStream = true := by
  decide

/-- C6.  `NewAnnotation` returns an annotation whose `Signature` is empty,
whose `Key`, `Hash`, `Host`, `Layer`, `Kind` and `IsSatisfied` equal the
corresponding arguments, and whose `Tag` is the tag-resolution result
`GetTagValue` for the given layer; the generated id and creation time are
carried through unchanged. -/
theorem newAnnotation_constructor_fields (id : ULID) (now : Time)
    (g : TagValueGetter) (env : String → String) (key : String)
    (hash : HashType) (host : String) (layer : LayerType)
    (kind : AnnotationType) (satisfied : Bool) :
    ( NewAnnotation id now g env key hash host layer kind satisfied).Signature = "" ∧
    ( NewAnnotation id now g env key hash host layer kind satisfied).Key = key ∧
    ( NewAnnotation id now g env key hash host layer kind satisfied).Hash = hash ∧
    ( NewAnnotation id now g env key hash host layer kind satisfied).Host = host ∧
    ( NewAnnotation id now g env key hash host layer kind satisfied).Layer = layer ∧
    ( NewAnnotation id now g env key hash host layer kind satisfied).Kind = kind ∧
    ( NewAnnotation id now g env key hash host layer kind satisfied).IsSatisfied = satisfied ∧
    ( NewAnnotation id now g env key hash host layer kind satisfied).Tag =
      GetTagValue g env layer ∧
    ( NewAnnotation id now g env key hash host layer kind satisfied).Id = id ∧
    ( NewAnnotation id now g env key hash host layer kind satisfied).Timestamp = now :=
  ⟨rfl, rfl, rfl, rfl, rfl, rfl, rfl, rfl, rfl, rfl⟩

/-- C7.  Every string that is not a declared member of the respective
enumeration is rejected by that enumeration's `Validate`: the predicate
returns false outside the declared member set, for each of the seven
enumerations. -/
theorem validate_rejects_nonmembers (s : String) :
    (s ∉ hashTypeMembers → HashType.Validate s = false) ∧
    (s ∉ keyAlgorithmMembers → KeyAlgorithm.Validate s = false) ∧
    (s ∉ streamTypeMembers → StreamType.Validate s = false) ∧
    (s ∉ annotationTypeMembers → AnnotationType.Validate s = false) ∧
    (s ∉ layerTypeMembers → LayerType.Validate s = false) ∧
    (s ∉ derivedComponentMembers → DerivedComponent.Validate s = false) ∧
    (s ∉ netTypeMembers → NetType.Validate s = false) := by
  refine ⟨?_, ?_, ?_, ?_, ?_, ?_, ?_⟩ <;> intro h <;>
    simp only [hashTypeMembers, keyAlgorithmMembers, streamTypeMembers,
      annotationTypeMembers, layerTypeMembers, derivedComponentMembers,
      netTypeMembers, List.mem_cons, List.not_mem_nil, or_false, not_or] at h
  · obtain ⟨h1, h2, h3⟩ := h
    simp [HashType.Validate, h1, h2, h3]
  · obtain ⟨h1, h2, h3⟩ := h
    simp [KeyAlgorithm.Validate, h1, h2, h3]
  · obtain ⟨h1, h2, h3, h4, h5⟩ := h
    simp [StreamType.Validate, h1, h2, h3, h4, h5]
  · obtain ⟨h1, h2, h3, h4, h5, h6, h7, h8, h9⟩ := h
    simp [AnnotationType.Validate, h1, h2, h3, h4, h5, h6, h7, h8]
  · obtain ⟨h1, h2, h3, h4⟩ := h
    simp [LayerType.Validate, h1, h2, h3, h4]
  · obtain ⟨h1, h2, h3, h4, h5, h6, h7⟩ := h
    simp [DerivedComponent.Validate, h1, h2, h3, h4, h5, h6, h7]
  · obtain ⟨h1, h2, h3, h4⟩ := h
    simp [NetType.Validate, h1, h2, h3, h4]

/-- Witness for C7: the string `"invalid"`, a member of none of the seven
enumerations, is rejected by every `Validate`. -/
theorem validate_rejects_nonmembers_witness :
    HashType.Validate "invalid" = false ∧
    KeyAlgorithm.Validate "invalid" = false ∧
    StreamType.Validate "invalid" = false ∧
    AnnotationType.Validate "invalid" = false ∧
    LayerType.Validate "invalid" = false ∧
    DerivedComponent.Validate "invalid" = false ∧
    NetType.Validate "invalid" = false := by
  have h := validate_rejects_nonmembers "invalid"
  exact ⟨h.1 (by decide), h.2.1 (by decide), h.2.2.1 (by decide),
    h.2.2.2.1 (by decide), h.2.2.2.2.1 (by decide), h.2.2.2.2.2.1 (by decide),
    h.2.2.2.2.2.2 (by decide)⟩

/-- C8.  `Annotation.UnmarshalJSON` is atomic on failure: whenever it
returns an error — for malformed input or for a failed hash or kind
validation — the receiver is left exactly as it was; fields are assigned
only after all validation has passed. -/
theorem unmarshalJSON_atomic_on_failure (a : Annotation) (data : JsonData)
    (h : ( Annotation.unmarshalJSON a data).2.isSome = true) :
    ( Annotation.unmarshalJSON a data).1 = a := by
  cases data with
  | malformed msg => rfl
  | doc d =>
    by_cases h1 : HashType.Validate (decodeAlias d).Hash = true
    · by_cases h2 : AnnotationType.Validate (decodeAlias d).Kind = true
      · simp [ Annotation.unmarshalJSON, h1, h2] at h
      · simp [ Annotation.unmarshalJSON, h1, h2]
    · simp [ Annotation.unmarshalJSON, h1]

/-- Witness for C8: unmarshalling malformed input errors and leaves a
zero-valued receiver unchanged. -/
theorem unmarshalJSON_atomic_on_failure_witness :
    ( Annotation.unmarshalJSON blankAnn (.malformed "bad")).2.isSome = true ∧
    ( Annotation.unmarshalJSON blankAnn (.malformed "bad")).1 = blankAnn :=
  ⟨by decide,
   unmarshalJSON_atomic_on_failure blankAnn (.malformed "bad") (by decide)⟩

/-- C9.  `Annotation.UnmarshalJSON` does not validate the layer field: on
every well-formed document whose `hash` and `kind` are recognized, parsing
succeeds even when the `layer` value fails `LayerType.Validate`, and the
unrecognized layer value is stored as-is in the receiver. -/
theorem unmarshalJSON_ignores_layer_field (a : Annotation) (d : JsonDoc)
    (hh : HashType.Validate (d.hash.getD "") = true)
    (hk : AnnotationType.Validate (d.kind.getD "") = true)
    (hl : LayerType.Validate (d.layer.getD "") = false) :
    ( Annotation.unmarshalJSON a (.doc d)).2 = none ∧
    ( Annotation.unmarshalJSON a (.doc d)).1.Layer = d.layer.getD "" := by
  simp [ Annotation.unmarshalJSON, decodeAlias, hh, hk]

/-- Witness for C9: a document with hash `"md5"`, kind `"pki"` and the
unrecognized layer `"weird"` parses successfully and stores `"weird"`. -/
theorem unmarshalJSON_ignores_layer_field_witness :
    LayerType.Validate (oddLayerDoc.layer.getD "") = false ∧
    ( Annotation.unmarshalJSON blankAnn (.doc oddLayerDoc)).2 = none ∧
    ( Annotation.unmarshalJSON blankAnn (.doc oddLayerDoc)).1.Layer = "weird" := by
  have h := unmarshalJSON_ignores_layer_field blankAnn oddLayerDoc
    (by decide) (by decide) (by decide)
  exact ⟨by decide, h.1, h.2.trans rfl⟩

/-- C10.  A document omitting the `hash` field or the `kind` field always
fails `Annotation.UnmarshalJSON`: the absent field decodes to the zero
value, the empty string, which fails the corresponding validator. -/
theorem unmarshalJSON_fails_on_missing_hash_or_kind (a : Annotation)
    (d : JsonDoc) (h : d.hash = none ∨ d.kind = none) :
    ( Annotation.unmarshalJSON a (.doc d)).2.isSome = true := by
  rcases h with h | h
  · simp [ Annotation.unmarshalJSON, decodeAlias, h, HashType.Validate,
      MD5Hash, SHA256Hash, NoHash]
  · by_cases h1 : HashType.Validate (d.hash.getD "") = true
    · simp [ Annotation.unmarshalJSON, decodeAlias, h, h1,
        AnnotationType.Validate, AnnotationPKI, AnnotationTLS, AnnotationTPM,
        AnnotationSource, AnnotationPKIHttp, AnnotationSourceCode,
        AnnotationChecksum, AnnotationVulnerability]
    · simp [ Annotation.unmarshalJSON, decodeAlias, h1]

/-- Witness for C10: the empty JSON object, with every field absent, fails
to unmarshal. -/
theorem unmarshalJSON_fails_on_missing_hash_or_kind_witness :
    ( Annotation.unmarshalJSON blankAnn (.doc {})).2.isSome = true :=
  unmarshalJSON_fails_on_missing_hash_or_kind blankAnn {} (Or.inl rfl)

end contracts
